import Mathlib

/-!
Verification of the SQL AI Explorer application (src/app.py).

The application is a single-file natural-language-to-SQL chat front-end.
Its three core functions are `setup_database_agent`, `test_connection`
and `chat_with_db`, plus the UI wiring in `main` (the `on_send` handler,
the chat state and the clear button).

External collaborators (the SQLAlchemy engine, the LangChain `SQLDatabase`
and agent, the Groq LLM) are opaque remote capabilities.  We model them as
an environment `Env` of fallible functions returning `Except String _`:
an `Except.error e` value models the Python call raising an exception
whose `str(e)` is `e`.  Each Lean function below is a direct translation
of the correspondingly named Python function; totality of the Lean
function reflects that the Python function catches every exception and
never raises to its caller.
-/

/-- Opaque handle for the LangChain `SQLDatabase` object built over the
SQLAlchemy engine. -/
structure DBHandle where
  id : Nat
deriving DecidableEq, Repr

/-- Opaque handle for the LangChain SQL agent returned by
`create_sql_agent`. -/
structure Agent where
  id : Nat
deriving DecidableEq, Repr

/-- The five credential fields read from the configuration form. -/
structure Credentials where
  mysql_host : String
  mysql_user : String
  mysql_password : String
  mysql_db : String
  api_key : String
deriving DecidableEq, Repr

/-- The external world: the behaviour of the library calls the app makes.
`buildDbAgent uri key` models the body of the `try` block of
`setup_database_agent` (`create_engine`, `SQLDatabase`, `ChatGroq`,
`create_sql_agent`): it either yields the database handle and the agent,
or raises.  `connect uri` models `create_engine(uri)` followed by opening
and closing a session in `test_connection`.  `agentRun a q` models
`agent.run(user_query)`. -/
structure Env where
  buildDbAgent : String → String → Except String (DBHandle × Agent)
  connect : String → Except String Unit
  agentRun : Agent → String → Except String String

/-- The connection URI the app assembles:
`mysql+mysqlconnector://{user}:{password}@{host}/{db}`. -/
def mysql_uri (host user password db : String) : String :=
  "mysql+mysqlconnector://" ++ user ++ ":" ++ password ++ "@" ++ host ++ "/" ++ db

/-- The `db_uri` local of `setup_database_agent`, built from the credential
fields. -/
def db_uri (c : Credentials) : String :=
  mysql_uri c.mysql_host c.mysql_user c.mysql_password c.mysql_db

/-- Translation of `setup_database_agent` (src/app.py lines 29-59).
`not all([...])` in Python is true exactly when some field is the empty
string (the falsy string); in that case the function returns
`(None, None)` before entering the `try` block.  Any exception inside the
`try` block is caught and also yields `(None, None)`. -/
def setup_database_agent (env : Env) (c : Credentials) :
    Option DBHandle × Option Agent :=
  if c.mysql_host = "" || c.mysql_user = "" || c.mysql_password = "" ||
      c.mysql_db = "" || c.api_key = "" then
    (none, none)
  else
    match env.buildDbAgent (db_uri c) c.api_key with
    | Except.ok (db, agent) => (some db, some agent)
    | Except.error _ => (none, none)

/-- Translation of `test_connection` (src/app.py lines 63-75).  The whole
body is one `try`: building the engine and opening/closing the session
either succeeds, returning `(True, "Connection successful!")`, or raises
`e`, returning `(False, "Connection failed: " + str(e))`. -/
def test_connection (env : Env)
    (mysql_host mysql_user mysql_password mysql_db : String) :
    Bool × String :=
  match env.connect (mysql_uri mysql_host mysql_user mysql_password mysql_db) with
  | Except.ok _ => (true, "Connection successful!")
  | Except.error e => (false, "Connection failed: " ++ e)

/-- A transcript entry: `(question, answer)` where the answer slot is
`none` while pending (Python `None`) and `some text` once resolved. -/
abbrev Entry := String × Option String

/-- The chat transcript: the ordered list of entries. -/
abbrev Transcript := List Entry

/-- Translation of `chat_with_db` (src/app.py lines 79-101).  The Python
function mutates `history` in place and returns it; here the returned
list is the value of interest.  `history.append((user_query, None))`
becomes appending a pending entry, and `history[-1] = (user_query, x)`
becomes `List.set` at the last index. -/
def chat_with_db (env : Env) (history : Transcript) (user_query : String)
    (c : Credentials) : Transcript :=
  match setup_database_agent env c with
  | (some _db, some agent) =>
      let history1 := history ++ [(user_query, none)]
      match env.agentRun agent user_query with
      | Except.ok response =>
          history1.set (history1.length - 1) (user_query, some response)
      | Except.error e =>
          history1.set (history1.length - 1)
            (user_query, some ("❌ Error: " ++ e))
  | _ => history ++ [(user_query, some "❌ Database or API key not configured properly.")]

/-- The characters Python's `str.strip()` removes: exactly those with
`str.isspace() == True`, i.e. code points 0x09-0x0d (tab, LF, VT, FF,
CR), 0x1c-0x1f (file/group/record/unit separators), 0x20 (space),
0x85 (NEL), 0xa0 (no-break space), 0x1680 (Ogham space mark),
0x2000-0x200a (typographic spaces), 0x2028 (line separator),
0x2029 (paragraph separator), 0x202f (narrow no-break space),
0x205f (medium mathematical space) and 0x3000 (ideographic space). -/
def isPySpace (ch : Char) : Bool :=
  (0x09 ≤ ch.val && ch.val ≤ 0x0d) || (0x1c ≤ ch.val && ch.val ≤ 0x1f) ||
  ch.val = 0x20 || ch.val = 0x85 || ch.val = 0xa0 || ch.val = 0x1680 ||
  (0x2000 ≤ ch.val && ch.val ≤ 0x200a) || ch.val = 0x2028 ||
  ch.val = 0x2029 || ch.val = 0x202f || ch.val = 0x205f || ch.val = 0x3000

/-- Python's `str.strip()`: drop whitespace from both ends. -/
def pyStrip (s : String) : String :=
  ⟨((s.data.dropWhile isPySpace).reverse.dropWhile isPySpace).reverse⟩

/-- Translation of the `on_send` handler (src/app.py lines 146-152): an
empty-after-strip query returns the history unchanged; otherwise the
query is processed by `chat_with_db`. -/
def on_send (env : Env) (user_query : String) (history : Transcript)
    (c : Credentials) : Transcript :=
  if pyStrip user_query = "" then history
  else chat_with_db env history user_query c

/-- The UI-scoped session of `main`: `state` is the value of the
`gr.State([])` component (the Python list object that `chat_with_db`
mutates in place), `chatbot` is what the `gr.Chatbot` widget displays. -/
structure Session where
  state : Transcript
  chatbot : Transcript
deriving DecidableEq, Repr

/-- The fresh session: `state = gr.State([])` and an empty chat window. -/
def init_session : Session := ⟨[], []⟩

/-- A send event (`send_btn.click` / `user_input.submit`, src/app.py
lines 155-167): `on_send` receives the state value and its output is
rendered in the chatbot.  Because `chat_with_db` appends to the state
list in place and returns that same list, the state holds the same
updated list afterwards. -/
def send_event (env : Env) (c : Credentials) (user_query : String)
    (s : Session) : Session :=
  let h := on_send env user_query s.state c
  ⟨h, h⟩

/-- The clear event (`clear_btn.click(lambda: [], None, chatbot)`,
src/app.py line 169): the lambda takes no input and writes `[]` to the
`chatbot` output only; the `state` component is not an output and is
untouched. -/
def clear_event (s : Session) : Session := ⟨s.state, []⟩

/-- Setting the last position of `l ++ [a]` replaces `a`. -/
theorem set_append_last {α : Type} (l : List α) (a b : α) :
    (l ++ [a]).set l.length b = l ++ [b] := by
  induction l with
  | nil => rfl
  | cons x xs ih => simp [ih]

/-- On every path, `chat_with_db` returns the input history with exactly
one resolved entry `(user_query, some ans)` appended. -/
theorem chat_with_db_eq_append (env : Env) (history : Transcript)
    (user_query : String) (c : Credentials) :
    ∃ ans : String,
      chat_with_db env history user_query c
        = history ++ [(user_query, some ans)] := by
  unfold chat_with_db
  rcases hs : setup_database_agent env c with ⟨db, agent⟩
  rcases db with _ | d
  · exact ⟨_, rfl⟩
  · rcases agent with _ | a
    · exact ⟨_, rfl⟩
    · rcases hr : env.agentRun a user_query with e | r
      · refine ⟨"❌ Error: " ++ e, ?_⟩
        simp [hr, set_append_last]
      · refine ⟨r, ?_⟩
        simp [hr, set_append_last]

/-- C1: every call to `chat_with_db` returns a transcript one entry
longer than the input, on the setup-failure path and on the
success/execution-failure paths alike. -/
theorem chat_with_db_appends_one (env : Env) (history : Transcript)
    (user_query : String) (c : Credentials) :
    (chat_with_db env history user_query c).length = history.length + 1 := by
  obtain ⟨ans, h⟩ := chat_with_db_eq_append env history user_query c
  simp [h]

/-- C2: the single appended entry in the returned transcript always has a
resolved (string) answer slot, never the pending `none`: the agent's
answer, the configuration-error message, or an execution-error message. -/
theorem chat_with_db_answer_resolved (env : Env) (history : Transcript)
    (user_query : String) (c : Credentials) :
    ∃ ans : String,
      (chat_with_db env history user_query c).getLast?
        = some (user_query, some ans) := by
  obtain ⟨ans, h⟩ := chat_with_db_eq_append env history user_query c
  exact ⟨ans, by simp [h]⟩

/-- C3: whenever some credential field is empty, or the library calls of
the `try` block (connection-string assembly, database handle creation,
agent construction) raise, `setup_database_agent` returns `(None, None)`;
being a total function, it never raises to its caller. -/
theorem setup_database_agent_failure_none (env : Env) (c : Credentials)
    (h : c.mysql_host = "" ∨ c.mysql_user = "" ∨ c.mysql_password = "" ∨
      c.mysql_db = "" ∨ c.api_key = "" ∨
      ∃ e, env.buildDbAgent (db_uri c) c.api_key = Except.error e) :
    setup_database_agent env c = (none, none) := by
  unfold setup_database_agent
  rcases h with h | h | h | h | h | ⟨e, he⟩
  · simp [h]
  · simp [h]
  · simp [h]
  · simp [h]
  · simp [h]
  · split
    · rfl
    · rw [he]

/-- C10: the result pair of `setup_database_agent` is all-or-nothing:
either both components are `None` (missing field or caught exception) or
both are present (the `try` block returned `db, agent`); a mixed pair is
impossible, which is what the `if not db or not agent` check of
`chat_with_db` relies on. -/
theorem setup_database_agent_all_or_nothing (env : Env) (c : Credentials) :
    setup_database_agent env c = (none, none) ∨
      ∃ d a, setup_database_agent env c = (some d, some a) := by
  unfold setup_database_agent
  split
  · exact Or.inl rfl
  · rcases hb : env.buildDbAgent (db_uri c) c.api_key with e | ⟨d, a⟩
    · exact Or.inl rfl
    · exact Or.inr ⟨d, a, rfl⟩

/-- C4: `test_connection` succeeds exactly when opening and closing the
session raises no error; on failure it returns `False` together with a
message containing the underlying error text; being total, it never
raises to its caller. -/
theorem test_connection_spec (env : Env)
    (mysql_host mysql_user mysql_password mysql_db : String) :
    ((test_connection env mysql_host mysql_user mysql_password mysql_db).1 = true
        ↔ env.connect (mysql_uri mysql_host mysql_user mysql_password mysql_db)
            = Except.ok ()) ∧
    (∀ e, env.connect (mysql_uri mysql_host mysql_user mysql_password mysql_db)
        = Except.error e →
      (test_connection env mysql_host mysql_user mysql_password mysql_db).1 = false ∧
      ∃ pre suf,
        (test_connection env mysql_host mysql_user mysql_password mysql_db).2
          = pre ++ e ++ suf) := by
  unfold test_connection
  rcases hc : env.connect (mysql_uri mysql_host mysql_user mysql_password mysql_db)
    with e | u
  · refine ⟨by simp, ?_⟩
    intro e0 he0
    cases he0
    exact ⟨rfl, "Connection failed: ", "", by simp⟩
  · exact ⟨by simp, by intro e0 he0; simp at he0⟩

/-- C5: when setup succeeds but obtaining an answer from the agent fails
(the agent call raises `e`), the appended entry's answer slot holds the
chat message embedding the raw error text, and the call returns the
updated transcript normally (it is total, so no error reaches the
hosting process). -/
theorem chat_with_db_exec_failure (env : Env) (history : Transcript)
    (user_query : String) (c : Credentials) (db : DBHandle) (agent : Agent)
    (e : String)
    (hsetup : setup_database_agent env c = (some db, some agent))
    (herr : env.agentRun agent user_query = Except.error e) :
    chat_with_db env history user_query c
        = history ++ [(user_query, some ("❌ Error: " ++ e))] ∧
      ∃ pre suf, ("❌ Error: " ++ e) = pre ++ e ++ suf := by
  constructor
  · unfold chat_with_db
    rw [hsetup]
    simp [herr, set_append_last]
  · exact ⟨"❌ Error: ", "", by simp⟩

/-- C6: when setup succeeds and the agent call returns `response`, the
appended entry's answer slot is exactly that string, verbatim. -/
theorem chat_with_db_success_verbatim (env : Env) (history : Transcript)
    (user_query : String) (c : Credentials) (db : DBHandle) (agent : Agent)
    (response : String)
    (hsetup : setup_database_agent env c = (some db, some agent))
    (hok : env.agentRun agent user_query = Except.ok response) :
    chat_with_db env history user_query c
      = history ++ [(user_query, some response)] := by
  unfold chat_with_db
  rw [hsetup]
  simp [hok, set_append_last]

/-- C8: `chat_with_db` is append-only: the first `n` entries of the
returned transcript are exactly the input transcript's entries, unchanged
and in order; only the single new final entry differs. -/
theorem chat_with_db_frame (env : Env) (history : Transcript)
    (user_query : String) (c : Credentials) :
    (chat_with_db env history user_query c).take history.length = history := by
  obtain ⟨ans, h⟩ := chat_with_db_eq_append env history user_query c
  simp [h]

/-- C9: a question that is empty after stripping whitespace leaves the
transcript unchanged, for every environment, history and credential set:
the result does not depend on `env` at all, so `chat_with_db` is not
invoked. -/
theorem on_send_empty_query (user_query : String)
    (hq : pyStrip user_query = "") :
    ∀ (env : Env) (history : Transcript) (c : Credentials),
      on_send env user_query history c = history := by
  intro env history c
  unfold on_send
  simp [hq]

/-- A concrete environment in which every external call fails: building
the database and agent raises `"nodb"`, opening a session raises
`"boom"`, the agent raises `"agentfail"`. -/
def failEnv : Env where
  buildDbAgent := fun _ _ => Except.error "nodb"
  connect := fun _ => Except.error "boom"
  agentRun := fun _ _ => Except.error "agentfail"

/-- A concrete environment in which setup succeeds but the agent call
raises `"sql error"`. -/
def execFailEnv : Env where
  buildDbAgent := fun _ _ => Except.ok (⟨0⟩, ⟨0⟩)
  connect := fun _ => Except.ok ()
  agentRun := fun _ _ => Except.error "sql error"

/-- A concrete environment in which setup and the agent call both
succeed, the agent answering `"42 rows"`. -/
def okEnv : Env where
  buildDbAgent := fun _ _ => Except.ok (⟨1⟩, ⟨1⟩)
  connect := fun _ => Except.ok ()
  agentRun := fun _ _ => Except.ok "42 rows"

/-- Concrete, fully populated credentials. -/
def sampleCreds : Credentials :=
  ⟨"localhost", "root", "pw", "test", "key"⟩

/-- Concrete credentials with an empty password field. -/
def missingCreds : Credentials :=
  ⟨"localhost", "root", "", "test", "key"⟩

/-- C7 counterexample: after one question and a clear action, the session
state — the transcript that `on_send` passes to `chat_with_db` — is not
empty, and a subsequent Conversation Handler call therefore operates on a
two-entry transcript instead of a one-entry one: the clear action resets
only the chatbot display, not the state. -/
theorem clear_keeps_state_counterexample :
    (clear_event (send_event failEnv sampleCreds "hi" init_session)).state ≠ [] ∧
    (send_event failEnv sampleCreds "again"
      (clear_event (send_event failEnv sampleCreds "hi" init_session))).state.length
        = 2 := by
  constructor
  · decide
  · decide

/-- C7 (amended): the clear action always resets the displayed chat
window to the empty sequence regardless of prior length, but it leaves
the session state — the transcript used by subsequent Conversation
Handler calls — exactly as it was; that transcript is empty after a
clear only if it was already empty. -/
theorem clear_event_spec (s : Session) :
    (clear_event s).chatbot = [] ∧ (clear_event s).state = s.state :=
  ⟨rfl, rfl⟩

/-- Witness for C3: concrete credentials with an empty password yield
`(None, None)`. -/
theorem setup_database_agent_failure_none_witness :
    setup_database_agent failEnv missingCreds = (none, none) :=
  setup_database_agent_failure_none failEnv missingCreds
    (Or.inr (Or.inr (Or.inl rfl)))

/-- Witness for C4: in the environment whose connection attempt raises
`"boom"`, the probe reports failure with a message containing `"boom"`. -/
theorem test_connection_spec_witness :
    (test_connection failEnv "localhost" "root" "pw" "test").1 = false ∧
    ∃ pre suf,
      (test_connection failEnv "localhost" "root" "pw" "test").2
        = pre ++ "boom" ++ suf :=
  (test_connection_spec failEnv "localhost" "root" "pw" "test").2 "boom" rfl

/-- Witness for C5: with setup succeeding and the agent raising
`"sql error"`, the appended entry embeds that raw error text. -/
theorem chat_with_db_exec_failure_witness :
    chat_with_db execFailEnv [] "show users" sampleCreds
        = [] ++ [("show users", some ("❌ Error: " ++ "sql error"))] ∧
      ∃ pre suf, ("❌ Error: " ++ "sql error") = pre ++ "sql error" ++ suf :=
  chat_with_db_exec_failure execFailEnv [] "show users" sampleCreds ⟨0⟩ ⟨0⟩
    "sql error" (by decide) rfl

/-- Witness for C6: with setup succeeding and the agent answering
`"42 rows"`, the appended entry holds exactly `"42 rows"`. -/
theorem chat_with_db_success_verbatim_witness :
    chat_with_db okEnv [] "how many rows in orders" sampleCreds
      = [] ++ [("how many rows in orders", some "42 rows")] :=
  chat_with_db_success_verbatim okEnv [] "how many rows in orders" sampleCreds
    ⟨1⟩ ⟨1⟩ "42 rows" (by decide) rfl

/-- Witness for C9: a whitespace-only question leaves a concrete
one-entry transcript unchanged. -/
theorem on_send_empty_query_witness :
    on_send failEnv "   " [("q", some "a")] sampleCreds = [("q", some "a")] :=
  on_send_empty_query "   " (by decide) failEnv [("q", some "a")] sampleCreds
